import Mathlib

/-! Verification of the timezonebaby input-to-timezone resolution engine.

The repository resolves a compact route token (for example TR1330 or CETnow)
into a timezone and a time of day.  Strings are modelled as lists of
characters; the static country table (the world-countries package) and the
tz-database country index (moment-timezone zonesForCountry) are external data
the code consumes, so they appear here as explicit parameters. -/

/-- ASCII single-character uppercase map, as JS toUpperCase acts on the ASCII
letters (the only characters the parser feeds it). -/
def upperChar (c : Char) : Char :=
  match c with
  | 'a' => 'A'
  | 'b' => 'B'
  | 'c' => 'C'
  | 'd' => 'D'
  | 'e' => 'E'
  | 'f' => 'F'
  | 'g' => 'G'
  | 'h' => 'H'
  | 'i' => 'I'
  | 'j' => 'J'
  | 'k' => 'K'
  | 'l' => 'L'
  | 'm' => 'M'
  | 'n' => 'N'
  | 'o' => 'O'
  | 'p' => 'P'
  | 'q' => 'Q'
  | 'r' => 'R'
  | 's' => 'S'
  | 't' => 'T'
  | 'u' => 'U'
  | 'v' => 'V'
  | 'w' => 'W'
  | 'x' => 'X'
  | 'y' => 'Y'
  | 'z' => 'Z'
  | _ => c

/-- ASCII single-character lowercase map, as JS toLowerCase acts on the ASCII
letters. -/
def lowerChar (c : Char) : Char :=
  match c with
  | 'A' => 'a'
  | 'B' => 'b'
  | 'C' => 'c'
  | 'D' => 'd'
  | 'E' => 'e'
  | 'F' => 'f'
  | 'G' => 'g'
  | 'H' => 'h'
  | 'I' => 'i'
  | 'J' => 'j'
  | 'K' => 'k'
  | 'L' => 'l'
  | 'M' => 'm'
  | 'N' => 'n'
  | 'O' => 'o'
  | 'P' => 'p'
  | 'Q' => 'q'
  | 'R' => 'r'
  | 'S' => 's'
  | 'T' => 't'
  | 'U' => 'u'
  | 'V' => 'v'
  | 'W' => 'w'
  | 'X' => 'x'
  | 'Y' => 'y'
  | 'Z' => 'z'
  | _ => c

/-- Whitespace test used by the JS trim on the characters route tokens can
contain (ASCII whitespace). -/
def isWsC (c : Char) : Bool :=
  c = ' ' || c = '\t' || c = '\n' || c = '\r'

/-- Uppercase a string (list of characters), mirroring toUpperCase. -/
def upperStr (l : List Char) : List Char :=
  l.map upperChar

/-- Lowercase a string (list of characters), mirroring toLowerCase. -/
def lowerStr (l : List Char) : List Char :=
  l.map lowerChar

/-- Strip leading and trailing whitespace, mirroring the JS trim call. -/
def trimStr (l : List Char) : List Char :=
  (((l.dropWhile isWsC).reverse).dropWhile isWsC).reverse

/-- Numeric value of one decimal digit character (other characters map to 0;
the parser only applies it under a digit guard). -/
def digitVal (c : Char) : Nat :=
  match c with
  | '0' => 0
  | '1' => 1
  | '2' => 2
  | '3' => 3
  | '4' => 4
  | '5' => 5
  | '6' => 6
  | '7' => 7
  | '8' => 8
  | '9' => 9
  | _ => 0

/-- Value of a two-digit decimal string, as parseInt on a two-digit substring. -/
def twoDigitVal (a b : Char) : Nat :=
  10 * digitVal a + digitVal b

/-- One entry of the static country table (world-countries): the ISO alpha-2
code cca2 and the common name. -/
structure CountryRec where
  cca2 : List Char
  commonName : List Char
deriving DecidableEq

/-- Resolution result of a region code: the IANA timezone identifier and the
display name (country common name, or the abbreviation itself). -/
structure ZoneInfo where
  timezone : List Char
  displayName : List Char
deriving DecidableEq

/-- Time specification: the literal now, or a validated explicit hour/minute. -/
inductive TimeSpec where
  | Now : TimeSpec
  | Explicit : Nat → Nat → TimeSpec
deriving DecidableEq

/-- The 8-entry abbreviation map of src/unnamed/part_002 lines 643-652
(getSpecialTzMap). -/
def getSpecialTzMap : List (List Char × List Char) :=
  [(("CET").data, ("Europe/Paris").data),
   (("IST").data, ("Asia/Kolkata").data),
   (("PST").data, ("America/Los_Angeles").data),
   (("UTC").data, ("UTC").data),
   (("EST").data, ("America/New_York").data),
   (("GMT").data, ("Europe/London").data),
   (("JST").data, ("Asia/Tokyo").data),
   (("AEST").data, ("Australia/Sydney").data)]

/-- Key lookup in an association-list map, as the JS object access map[key]
(every value in the maps here is a nonempty string, hence truthy). -/
def lookupSpecial (m : List (List Char × List Char)) (k : List Char) : Option (List Char) :=
  (m.find? (fun p => p.1 == k)).map (fun p => p.2)

/-- Code resolver of src/unnamed/part_002 lines 655-683 (getTimeZoneFromCode):
abbreviation map first, then a case-insensitive 2-letter country lookup whose
primary timezone is the head of zonesForCountry.  countriesData and
zonesForCountry are the external static tables the code imports. -/
def getTimeZoneFromCode (countriesData : List CountryRec)
    (zonesForCountry : List Char → List (List Char)) (code : List Char) : Option ZoneInfo :=
  let upperCode := upperStr code
  match lookupSpecial getSpecialTzMap upperCode with
  | some tz => some ⟨tz, upperCode⟩
  | none =>
    if upperCode.length = 2 then
      match countriesData.find? (fun c => upperStr c.cca2 == upperCode) with
      | some m =>
        match zonesForCountry m.cca2 with
        | [] => none
        | tz :: _ => some ⟨tz, m.commonName⟩
      | none => none
    else none

/-- Time-segment validation inlined in src/unnamed/part_002 lines 784-795:
the literal now, or exactly four decimal digits whose hour is at most 23 and
whose minute is at most 59. -/
def isValidTimePart (timePart : List Char) : Bool :=
  if timePart = ("now").data then true
  else
    match timePart with
    | [a, b, c, d] =>
      a.isDigit && b.isDigit && c.isDigit && d.isDigit
        && decide (twoDigitVal a b ≤ 23) && decide (twoDigitVal c d ≤ 59)
    | _ => false

/-- Result of a successful parse: the split code and time segments and the
resolved zone, as returned by parseUserInput. -/
structure Parsed where
  codePart : List Char
  timePart : List Char
  zoneInfo : ZoneInfo
deriving DecidableEq

/-- One iteration of the candidate-length loop of src/unnamed/part_002 lines
777-809: skip when the input is shorter than code plus now, split, validate
the time segment, then resolve the code segment. -/
def tryCodeLen (countriesData : List CountryRec)
    (zonesForCountry : List Char → List (List Char))
    (cleaned : List Char) (codeLen : Nat) : Option Parsed :=
  if cleaned.length < codeLen + 3 then none
  else
    let codePart := cleaned.take codeLen
    let timePart := lowerStr (cleaned.drop codeLen)
    if isValidTimePart timePart then
      match getTimeZoneFromCode countriesData zonesForCountry codePart with
      | some zi => some ⟨codePart, timePart, zi⟩
      | none => none
    else none

/-- Input parser of src/unnamed/part_002 lines 777-809: trim and uppercase,
then try candidate code lengths 3 and 2 in that order, returning the first
fully valid split. -/
def parseUserInput_v2 (countriesData : List CountryRec)
    (zonesForCountry : List Char → List (List Char)) (input : List Char) : Option Parsed :=
  let cleaned := upperStr (trimStr input)
  match tryCodeLen countriesData zonesForCountry cleaned 3 with
  | some r => some r
  | none => tryCodeLen countriesData zonesForCountry cleaned 2

/-- Time specification extracted from a validated time segment, as the page
component does with parseInt on the two substrings (part_002 lines 861-864). -/
def timeSpecOfTimePart (timePart : List Char) : TimeSpec :=
  if timePart = ("now").data then TimeSpec.Now
  else
    match timePart with
    | a :: b :: c :: d :: _ => TimeSpec.Explicit (twoDigitVal a b) (twoDigitVal c d)
    | _ => TimeSpec.Explicit 0 0

/-- Nonempty string of decimal digits. -/
def allDigits (l : List Char) : Bool :=
  !l.isEmpty && l.all Char.isDigit

/-- Hexadecimal digit test. -/
def isHexDigitC (c : Char) : Bool :=
  c.isDigit || ('a' ≤ c && c ≤ 'f') || ('A' ≤ c && c ≤ 'F')

/-- Nonempty string of hexadecimal digits. -/
def allHexDigits (l : List Char) : Bool :=
  !l.isEmpty && l.all isHexDigitC

/-- Nonempty string of octal digits. -/
def allOctalDigits (l : List Char) : Bool :=
  !l.isEmpty && l.all (fun c => '0' ≤ c ∧ c ≤ '7')

/-- Nonempty string of binary digits. -/
def allBinaryDigits (l : List Char) : Bool :=
  !l.isEmpty && l.all (fun c => c = '0' ∨ c = '1')

/-- Decimal significand of a numeric string literal: digits, digits dot
optional digits, or dot digits. -/
def sigOk (l : List Char) : Bool :=
  if l.contains '.' then
    let a := l.takeWhile (fun c => c ≠ '.')
    let b := (l.dropWhile (fun c => c ≠ '.')).tail
    !(b.contains '.') &&
      ((allDigits a && (b.isEmpty || allDigits b)) || (a.isEmpty && allDigits b))
  else allDigits l

/-- Signed-integer exponent of a numeric string literal. -/
def expOk (l : List Char) : Bool :=
  match l with
  | '+' :: r => allDigits r
  | '-' :: r => allDigits r
  | r => allDigits r

/-- Unsigned part of a numeric string literal: Infinity, or a significand with
an optional exponent. -/
def unsignedNumOk (l : List Char) : Bool :=
  if l = ("Infinity").data then true
  else if l.contains 'e' || l.contains 'E' then
    let m := l.takeWhile (fun c => c ≠ 'e' ∧ c ≠ 'E')
    let e := (l.dropWhile (fun c => c ≠ 'e' ∧ c ≠ 'E')).tail
    sigOk m && expOk e
  else sigOk l

/-- Hexadecimal, octal or binary integer literal (no sign allowed). -/
def nonDecimalOk (l : List Char) : Bool :=
  match l with
  | '0' :: 'x' :: r => allHexDigits r
  | '0' :: 'X' :: r => allHexDigits r
  | '0' :: 'o' :: r => allOctalDigits r
  | '0' :: 'O' :: r => allOctalDigits r
  | '0' :: 'b' :: r => allBinaryDigits r
  | '0' :: 'B' :: r => allBinaryDigits r
  | _ => false

/-- Modelled from the spec: the host JS runtime Number conversion is not part
of src/.  This recognizes the strings on which Number does not yield NaN, per
the ECMAScript StringNumericLiteral grammar (trimmed; empty is 0; an optional
sign followed by Infinity or a decimal literal; or an unsigned hexadecimal,
octal or binary literal). -/
def jsNumberNotNaN (s : List Char) : Bool :=
  let t := trimStr s
  if t.isEmpty then true
  else
    match t with
    | '+' :: r => unsignedNumOk r
    | '-' :: r => unsignedNumOk r
    | _ => nonDecimalOk t || unsignedNumOk t

/-- The 4-entry abbreviation map of src/unnamed/part_002 lines 22-27
(SPECIAL_TZ_MAP). -/
def SPECIAL_TZ_MAP : List (List Char × List Char) :=
  [(("CET").data, ("Europe/Paris").data),
   (("IST").data, ("Asia/Kolkata").data),
   (("PST").data, ("America/Los_Angeles").data),
   (("UTC").data, ("UTC").data)]

/-- Primary-timezone helper of src/unnamed/part_002 lines 72-78
(getPrimaryTimezoneForCountry): head of zonesForCountry, or none when the
list is empty. -/
def getPrimaryTimezoneForCountry (zonesForCountry : List Char → List (List Char))
    (cca2 : List Char) : Option (List Char) :=
  match zonesForCountry cca2 with
  | [] => none
  | tz :: _ => some tz

/-- Time validator of src/unnamed/part_002 lines 85-89 (isValidTimeString):
the literal now, or any 4-character string that Number converts without NaN. -/
def isValidTimeString (timeStr : List Char) : Bool :=
  if lowerStr timeStr = ("now").data then true
  else if timeStr.length = 4 && jsNumberNotNaN timeStr then true
  else false

/-- Code resolver of src/unnamed/part_002 lines 96-128: the 4-entry
abbreviation map first, then the case-insensitive 2-letter country lookup. -/
def getTimeZoneFromCode_v1 (countriesData : List CountryRec)
    (zonesForCountry : List Char → List (List Char)) (code : List Char) : Option ZoneInfo :=
  let upperCode := upperStr code
  match lookupSpecial SPECIAL_TZ_MAP upperCode with
  | some tz => some ⟨tz, upperCode⟩
  | none =>
    if upperCode.length = 2 then
      match countriesData.find? (fun c => upperStr c.cca2 == upperCode) with
      | some m =>
        match getPrimaryTimezoneForCountry zonesForCountry m.cca2 with
        | some tz => some ⟨tz, m.commonName⟩
        | none => none
      | none => none
    else none

/-- One iteration of the candidate loop of src/unnamed/part_002 lines 137-164:
skip short inputs, split, resolve the code segment first, then validate the
time segment. -/
def tryCodeLen_v1 (countriesData : List CountryRec)
    (zonesForCountry : List Char → List (List Char))
    (cleaned : List Char) (codeLen : Nat) : Option Parsed :=
  if cleaned.length < codeLen then none
  else
    let codePart := upperStr (cleaned.take codeLen)
    let timePart := lowerStr (cleaned.drop codeLen)
    match getTimeZoneFromCode_v1 countriesData zonesForCountry codePart with
    | some zi =>
      if isValidTimeString timePart then some ⟨codePart, timePart, zi⟩ else none
    | none => none

/-- Input parser of src/unnamed/part_002 lines 137-164: trim, then try
candidate code lengths 4, 3 and 2 in that order. -/
def parseUserInput_v1 (countriesData : List CountryRec)
    (zonesForCountry : List Char → List (List Char)) (input : List Char) : Option Parsed :=
  let cleaned := trimStr input
  match tryCodeLen_v1 countriesData zonesForCountry cleaned 4 with
  | some r => some r
  | none =>
    match tryCodeLen_v1 countriesData zonesForCountry cleaned 3 with
    | some r => some r
    | none => tryCodeLen_v1 countriesData zonesForCountry cleaned 2

/-- Primary-timezone helper of src/app/[input]/page.tsx lines 113-119
(getPrimaryTimezone): head of zonesForCountry, with the literal UTC as the
fallback for an empty or missing list. -/
def getPrimaryTimezone (zonesForCountry : List Char → List (List Char))
    (code : List Char) : List Char :=
  match zonesForCountry code with
  | [] => ("UTC").data
  | tz :: _ => tz

/-- Outcome of the parse-level flow of src/app/[input]/page.tsx: the too-short
warning, any other parse-level warning (country code not found, or a bad time
segment — both are the Unrecognized category of the error taxonomy), or an
accepted split carrying the resolved zone and the raw time segment. -/
inductive PageOutcome where
  | TooShort : PageOutcome
  | Unrecognized : PageOutcome
  | Accepted : ZoneInfo → List Char → PageOutcome
deriving DecidableEq

/-- Parse-level flow of src/app/[input]/page.tsx lines 80-140: reject length
below 2 as too short, split at a fixed 2-character code, look the country up,
then accept the literal now or a 4-character numeric segment.  The later
DateTime construction stage is modelled separately by buildInstant. -/
def pageGate (countriesData : List CountryRec)
    (zonesForCountry : List Char → List (List Char)) (input : List Char) : PageOutcome :=
  if input.length < 2 then PageOutcome.TooShort
  else
    let countryCode := upperStr (input.take 2)
    let remaining := lowerStr (input.drop 2)
    match countriesData.find? (fun c => upperStr c.cca2 == countryCode) with
    | none => PageOutcome.Unrecognized
    | some m =>
      let zi : ZoneInfo := ⟨getPrimaryTimezone zonesForCountry m.cca2, m.commonName⟩
      if remaining = ("now").data then PageOutcome.Accepted zi remaining
      else if remaining.length = 4 && jsNumberNotNaN remaining then
        PageOutcome.Accepted zi remaining
      else PageOutcome.Unrecognized

/-- Outcome of the page-level gate around parseUserInput in
src/unnamed/part_002 lines 812-880: too short, unrecognized, or a resolved
request (zone plus time specification). -/
inductive GateOutcome where
  | TooShort : GateOutcome
  | Unrecognized : GateOutcome
  | Resolved : ZoneInfo → TimeSpec → GateOutcome
deriving DecidableEq

/-- Page-level gate of src/unnamed/part_002 lines 825-834: inputs of length
below 3 are rejected as too short before parseUserInput runs. -/
def inputGate_v2 (countriesData : List CountryRec)
    (zonesForCountry : List Char → List (List Char)) (input : List Char) : GateOutcome :=
  if input.length < 3 then GateOutcome.TooShort
  else
    match parseUserInput_v2 countriesData zonesForCountry input with
    | none => GateOutcome.Unrecognized
    | some p => GateOutcome.Resolved p.zoneInfo (timeSpecOfTimePart p.timePart)

/-- Modelled from the spec: luxon zoned datetimes are not part of src/.  Per
section 4.3 a zoned instant is an absolute time paired with the display
offset of its zone; dates are abstracted away (Contract A is
calendar-date-agnostic), so absolute time is counted in minutes. -/
structure ZonedDateTime where
  instant : Int
  offset : Int
deriving DecidableEq

/-- Modelled from the spec: the host timezone database resolves an IANA
identifier to a display offset in minutes, with unknown identifiers
resolving to none; the fixed zone UTC is always known with offset 0. -/
def zoneOffsetOf (env : List Char → Option Int) (tz : List Char) : Option Int :=
  if tz = ("UTC").data then some 0 else env tz

/-- Modelled from the spec: luxon setZone re-expresses the same absolute
instant in another zone, and fails on an unknown identifier (Contract B
treats that failure as catchable). -/
def setZone (env : List Char → Option Int) (dt : ZonedDateTime)
    (tz : List Char) : Option ZonedDateTime :=
  match zoneOffsetOf env tz with
  | some o => some ⟨dt.instant, o⟩
  | none => none

/-- Character of one decimal digit value. -/
def digitChar (n : Nat) : Char :=
  match n with
  | 0 => '0'
  | 1 => '1'
  | 2 => '2'
  | 3 => '3'
  | 4 => '4'
  | 5 => '5'
  | 6 => '6'
  | 7 => '7'
  | 8 => '8'
  | _ => '9'

/-- Two-digit zero-padded rendering of a value below 100. -/
def twoDigitsRender (n : Nat) : List Char :=
  [digitChar (n / 10), digitChar (n % 10)]

/-- Rendering of the luxon format pattern HH:mm. -/
def renderHHMM (h m : Nat) : List Char :=
  twoDigitsRender h ++ ':' :: twoDigitsRender m

/-- Modelled from the spec: luxon toFormat with pattern HH:mm shows the local
hour and minute, i.e. the absolute instant shifted by the zone offset and
reduced modulo one day. -/
def toFormatHHMM (dt : ZonedDateTime) : List Char :=
  let localMin : Nat := ((dt.instant + dt.offset) % 1440).toNat
  renderHHMM (localMin / 60) (localMin % 60)

/-- Conversion helper of src/unnamed/part_002 lines 245-251 (getCountryTime):
re-express the base time in the requested zone; when that fails, catch and
fall back to UTC, still returning a formatted string. -/
def getCountryTime (env : List Char → Option Int) (baseTime : ZonedDateTime)
    (timezone : List Char) : List Char :=
  match setZone env baseTime timezone with
  | some dt => toFormatHHMM dt
  | none =>
    match setZone env baseTime (("UTC").data) with
    | some dt => toFormatHHMM dt
    | none => toFormatHHMM ⟨baseTime.instant, 0⟩

/-- Base-time construction of src/unnamed/part_002 lines 222-241: now is the
current instant expressed in the zone; an explicit hour/minute is that
wall-clock time in the zone, failing when the zone is unknown. -/
def buildInstant (env : List Char → Option Int) (ts : TimeSpec) (tz : List Char)
    (nowInstant : Int) : Option ZonedDateTime :=
  match ts with
  | TimeSpec.Now => setZone env ⟨nowInstant, 0⟩ tz
  | TimeSpec.Explicit h m =>
    match zoneOffsetOf env tz with
    | some o => some ⟨((h * 60 + m : Nat) : Int) - o, o⟩
    | none => none

/-- Sample instantiation of the external country table: the Turkey row of
world-countries, used to witness the universally quantified theorems. -/
def sampleCountries : List CountryRec :=
  [⟨("TR").data, ("Turkey").data⟩]

/-- Sample instantiation of the tz-database country index: zonesForCountry on
the code TR, used to witness the universally quantified theorems. -/
def sampleZones : List Char → List (List Char) :=
  fun c => if c = ("TR").data then [("Europe/Istanbul").data] else []

/-- Sample instantiation of the host timezone database offsets, used to
witness the time-engine theorems. -/
def sampleEnv : List Char → Option Int :=
  fun z => if z = ("Europe/Istanbul").data then some 180 else none

/-- The 26 uppercase letters, the possible proper outputs of upperChar. -/
def upperOutputs : List Char :=
  ['A', 'B', 'C', 'D', 'E', 'F', 'G', 'H', 'I', 'J', 'K', 'L', 'M',
   'N', 'O', 'P', 'Q', 'R', 'S', 'T', 'U', 'V', 'W', 'X', 'Y', 'Z']

theorem upperChar_digit (c : Char) (h : c.isDigit = true) : upperChar c = c := by
  unfold upperChar
  split <;> first | rfl | exact absurd h (by decide)

theorem lowerChar_digit (c : Char) (h : c.isDigit = true) : lowerChar c = c := by
  unfold lowerChar
  split <;> first | rfl | exact absurd h (by decide)

theorem isWsC_upperChar (c : Char) : isWsC (upperChar c) = isWsC c := by
  unfold upperChar
  split <;> rfl

theorem upperChar_out (c : Char) : upperChar c = c ∨ upperChar c ∈ upperOutputs := by
  unfold upperChar
  split <;> first | exact Or.inl rfl | exact Or.inr (by decide)

theorem upperChar_idem (c : Char) : upperChar (upperChar c) = upperChar c := by
  rcases upperChar_out c with h | h
  · rw [h, h]
  · have hall : upperOutputs.all (fun d => upperChar d == d) = true := by decide
    exact beq_iff_eq.mp (List.all_eq_true.mp hall _ h)

theorem upperStr_idem (l : List Char) : upperStr (upperStr l) = upperStr l := by
  unfold upperStr
  rw [List.map_map]
  congr 1
  funext c
  exact upperChar_idem c

theorem digit_not_ws (c : Char) (h : c.isDigit = true) : isWsC c = false := by
  unfold isWsC
  by_contra hw
  simp only [Bool.not_eq_false, Bool.or_eq_true, decide_eq_true_eq] at hw
  rcases hw with ((h1 | h1) | h1) | h1 <;> (subst h1; exact absurd h (by decide))

theorem trim_upper_comm (l : List Char) : trimStr (upperStr l) = upperStr (trimStr l) := by
  have hcomp : (isWsC ∘ upperChar) = isWsC := funext isWsC_upperChar
  unfold trimStr upperStr
  simp only [List.dropWhile_map, hcomp, ← List.map_reverse]

/-- C1: the 8-entry abbreviation table of part_002 contains the key AEST
mapped to Australia/Sydney, yet for every country table and zone index the
parser at lines 777-809 returns null on AESTnow, because it only tries
candidate code lengths 3 and 2 and the 4-character key is unreachable; a
3-character key such as JST resolves fine.  The code contradicts its own
abbreviation table, so the claim fails at k = AEST. -/
theorem aest_entry_unreachable :
    lookupSpecial getSpecialTzMap (("AEST").data) = some (("Australia/Sydney").data) ∧
    (∀ (cd : List CountryRec) (zf : List Char → List (List Char)),
      parseUserInput_v2 cd zf (("AESTnow").data) = none) ∧
    (∀ (cd : List CountryRec) (zf : List Char → List (List Char)),
      parseUserInput_v2 cd zf (("JSTnow").data) =
        some ⟨("JST").data, ("now").data, ⟨("Asia/Tokyo").data, ("JST").data⟩⟩) :=
  ⟨by decide, fun _ _ => rfl, fun _ _ => rfl⟩

/-- C3: parse of CETnow resolves the 3-character code CET to Europe/Paris with
the time segment now, in both parser variants; the 2-length candidate fails
because its leftover time segment tnow is not a valid time token. -/
theorem longest_match_cetnow :
    (∀ (cd : List CountryRec) (zf : List Char → List (List Char)),
      parseUserInput_v2 cd zf (("CETnow").data) =
        some ⟨("CET").data, ("now").data, ⟨("Europe/Paris").data, ("CET").data⟩⟩) ∧
    (∀ (cd : List CountryRec) (zf : List Char → List (List Char)),
      tryCodeLen cd zf (upperStr (trimStr (("CETnow").data))) 2 = none) ∧
    isValidTimePart (("tnow").data) = false ∧
    (∀ (cd : List CountryRec) (zf : List Char → List (List Char)),
      parseUserInput_v1 cd zf (("CETnow").data) =
        some ⟨("CET").data, ("now").data, ⟨("Europe/Paris").data, ("CET").data⟩⟩) :=
  ⟨fun _ _ => rfl, fun _ _ => rfl, by decide, fun _ _ => rfl⟩

/-- C8: the parser of part_002 lines 777-809 is case-insensitive: two inputs
with the same uppercase image parse identically, so every mixed-case rendering
of an abbreviation plus now behaves exactly like the canonical form. -/
theorem parse_case_insensitive :
    ∀ (cd : List CountryRec) (zf : List Char → List (List Char)) (s t : List Char),
      upperStr s = upperStr t →
      parseUserInput_v2 cd zf s = parseUserInput_v2 cd zf t := by
  intro cd zf s t h
  unfold parseUserInput_v2
  rw [← trim_upper_comm, ← trim_upper_comm, h]

/-- Witness for C8: cetNOW and CETnow have the same uppercase image and parse
to the same resolved request, Europe/Paris at now. -/
theorem parse_case_insensitive_witness :
    upperStr (("cetNOW").data) = upperStr (("CETnow").data) ∧
    parseUserInput_v2 sampleCountries sampleZones (("cetNOW").data) =
      parseUserInput_v2 sampleCountries sampleZones (("CETnow").data) ∧
    parseUserInput_v2 sampleCountries sampleZones (("cetNOW").data) =
      some ⟨("CET").data, ("now").data, ⟨("Europe/Paris").data, ("CET").data⟩⟩ :=
  ⟨by decide, parse_case_insensitive sampleCountries sampleZones _ _ (by decide), by decide⟩

/-- C9: the variant time validator of part_002 lines 85-89 only checks length
4 and Number conversion, so the non-digit 4-character segments 12.5 and 1e30
are accepted, and the parser built on it accepts TR12.5 with a time token
containing a dot. -/
theorem lax_time_validator :
    isValidTimeString (("12.5").data) = true ∧
    isValidTimeString (("1e30").data) = true ∧
    (("12.5").data).contains '.' = true ∧
    (("1e30").data).contains 'e' = true ∧
    parseUserInput_v1 sampleCountries sampleZones (("TR12.5").data) =
      some ⟨("TR").data, ("12.5").data, ⟨("Europe/Istanbul").data, ("Turkey").data⟩⟩ := by
  decide

/-- C10: deriving a primary timezone never fails: getPrimaryTimezone of
page.tsx returns the head of the country's zone list when nonempty and the
literal UTC when the list is empty, so a successful country match always
yields a timezone string. -/
theorem primary_timezone_never_fails :
    ∀ (zf : List Char → List (List Char)) (code : List Char),
      (zf code = [] ∧ getPrimaryTimezone zf code = ("UTC").data) ∨
      (∃ z zs, zf code = z :: zs ∧ getPrimaryTimezone zf code = z) := by
  intro zf code
  cases h : zf code with
  | nil => exact Or.inl ⟨rfl, by unfold getPrimaryTimezone; rw [h]⟩
  | cons z zs => exact Or.inr ⟨z, zs, rfl, by unfold getPrimaryTimezone; rw [h]⟩

theorem tryCodeLen_time_valid (cd : List CountryRec) (zf : List Char → List (List Char))
    (cleaned : List Char) (n : Nat) (p : Parsed)
    (h : tryCodeLen cd zf cleaned n = some p) : isValidTimePart p.timePart = true := by
  simp only [tryCodeLen] at h
  split at h
  · exact Option.noConfusion h
  · split at h
    · rename_i hvalid
      split at h
      · cases h
        exact hvalid
      · exact Option.noConfusion h
    · exact Option.noConfusion h

theorem parse_v2_time_valid (cd : List CountryRec) (zf : List Char → List (List Char))
    (input : List Char) (p : Parsed)
    (h : parseUserInput_v2 cd zf input = some p) : isValidTimePart p.timePart = true := by
  simp only [parseUserInput_v2] at h
  split at h
  · rename_i r hr
    cases h
    exact tryCodeLen_time_valid _ _ _ _ _ hr
  · exact tryCodeLen_time_valid _ _ _ _ _ h

theorem isValidTimePart_spec (t : List Char) (h : isValidTimePart t = true) :
    t = ("now").data ∨
    ∃ a b c d, t = [a, b, c, d] ∧ a.isDigit = true ∧ b.isDigit = true ∧
      c.isDigit = true ∧ d.isDigit = true ∧
      twoDigitVal a b ≤ 23 ∧ twoDigitVal c d ≤ 59 := by
  unfold isValidTimePart at h
  split at h
  · rename_i hnow
    exact Or.inl hnow
  · split at h
    · rename_i a b c d hneq2
      simp only [Bool.and_eq_true, decide_eq_true_eq] at h
      obtain ⟨⟨⟨⟨⟨h1, h2⟩, h3⟩, h4⟩, h5⟩, h6⟩ := h
      exact Or.inr ⟨a, b, c, d, rfl, h1, h2, h3, h4, h5, h6⟩
    · exact absurd h (by simp)

/-- Counterexample for C4: against the cited variant validator
isValidTimeString (part_002 lines 85-89), the out-of-range segments 2400 and
9999 pass time validation, and the parser built on it (lines 137-164)
successfully parses TR2400 and TR9999 at candidate length 2 — the parse does
not fail, contradicting the claim as stated. -/
theorem time_range_deferral_counterexample :
    isValidTimeString (("2400").data) = true ∧
    isValidTimeString (("9999").data) = true ∧
    parseUserInput_v1 sampleCountries sampleZones (("TR2400").data) =
      some ⟨("TR").data, ("2400").data, ⟨("Europe/Istanbul").data, ("Turkey").data⟩⟩ ∧
    parseUserInput_v1 sampleCountries sampleZones (("TR9999").data) =
      some ⟨("TR").data, ("9999").data, ⟨("Europe/Istanbul").data, ("Turkey").data⟩⟩ := by
  decide

/-- C4 as amended: in the range-checking parser of part_002 lines 777-809 the
time segments 0000 and 2359 are valid, 2400 and 9999 are invalid, inputs
carrying them fail at every candidate code length before any zone lookup, and
any successful parse carries either the literal now or four decimal digits
with hour at most 23 and minute at most 59, never clamped or deferred; in the
variant whose validator is isValidTimeString (lines 85-89), 2400 and 9999 are
accepted as time tokens alongside 0000 and 2359, the parse of TR2400
succeeds, and the out-of-range Explicit value 24:00 is handed onward to the
later DateTime construction stage — there the rejection is deferred, not
performed at parse time. -/
theorem time_range_validation_amended :
    (isValidTimePart (("0000").data) = true ∧
     isValidTimePart (("2359").data) = true ∧
     isValidTimePart (("2400").data) = false ∧
     isValidTimePart (("9999").data) = false ∧
     (∀ (cd : List CountryRec) (zf : List Char → List (List Char)),
       parseUserInput_v2 cd zf (("CET2400").data) = none ∧
       parseUserInput_v2 cd zf (("CET9999").data) = none ∧
       parseUserInput_v2 cd zf (("TR2400").data) = none ∧
       parseUserInput_v2 cd zf (("TR9999").data) = none) ∧
     (∀ (cd : List CountryRec) (zf : List Char → List (List Char))
         (input : List Char) (p : Parsed),
       parseUserInput_v2 cd zf input = some p →
       p.timePart = ("now").data ∨
       ∃ a b c d, p.timePart = [a, b, c, d] ∧ a.isDigit = true ∧ b.isDigit = true ∧
         c.isDigit = true ∧ d.isDigit = true ∧
         twoDigitVal a b ≤ 23 ∧ twoDigitVal c d ≤ 59)) ∧
    (isValidTimeString (("0000").data) = true ∧
     isValidTimeString (("2359").data) = true ∧
     isValidTimeString (("2400").data) = true ∧
     isValidTimeString (("9999").data) = true ∧
     parseUserInput_v1 sampleCountries sampleZones (("TR2400").data) =
       some ⟨("TR").data, ("2400").data,
         ⟨("Europe/Istanbul").data, ("Turkey").data⟩⟩ ∧
     timeSpecOfTimePart (("2400").data) = TimeSpec.Explicit 24 0 ∧
     ¬(24 ≤ 23)) :=
  ⟨⟨by decide, by decide, by decide, by decide,
    fun _ _ => ⟨rfl, rfl, rfl, rfl⟩,
    fun cd zf input p h => isValidTimePart_spec _ (parse_v2_time_valid cd zf input p h)⟩,
   by decide⟩

/-- Witness for the amended C4: the successful parse of TRnow in the
range-checking parser carries the literal now as its validated time
segment. -/
theorem time_range_validation_amended_witness :
    (Parsed.mk (("TR").data) (("now").data)
        ⟨("Europe/Istanbul").data, ("Turkey").data⟩).timePart = ("now").data ∨
    ∃ a b c d, (Parsed.mk (("TR").data) (("now").data)
        ⟨("Europe/Istanbul").data, ("Turkey").data⟩).timePart = [a, b, c, d] ∧
      a.isDigit = true ∧ b.isDigit = true ∧ c.isDigit = true ∧ d.isDigit = true ∧
      twoDigitVal a b ≤ 23 ∧ twoDigitVal c d ≤ 59 :=
  time_range_validation_amended.1.2.2.2.2.2 sampleCountries sampleZones
    (("TRnow").data) _ (by decide)

/-- Counterexample for C7: the page variant of part_002 lines 825-834 rejects
the length-2 input TR as too short (its threshold is 3), while the page.tsx
variant does not. -/
theorem tooShort_threshold_counterexample :
    inputGate_v2 sampleCountries sampleZones (("TR").data) = GateOutcome.TooShort ∧
    (("TR").data).length = 2 ∧
    pageGate sampleCountries sampleZones (("TR").data) ≠ PageOutcome.TooShort := by
  decide

/-- C7 as amended: the too-short rejection is exactly a length threshold, but
the threshold differs by variant — below 2 in src/app/[input]/page.tsx,
below 3 in the part_002 variant; above the threshold a failure is always the
unrecognized outcome, never too-short. -/
theorem tooShort_threshold_amended :
    (∀ (cd : List CountryRec) (zf : List Char → List (List Char)) (input : List Char),
      pageGate cd zf input = PageOutcome.TooShort ↔ input.length < 2) ∧
    (∀ (cd : List CountryRec) (zf : List Char → List (List Char)) (input : List Char),
      inputGate_v2 cd zf input = GateOutcome.TooShort ↔ input.length < 3) := by
  constructor
  · intro cd zf input
    constructor
    · intro h
      by_cases hl : input.length < 2
      · exact hl
      · exfalso
        simp only [pageGate] at h
        rw [if_neg hl] at h
        split at h
        · exact PageOutcome.noConfusion h
        · split at h
          · exact PageOutcome.noConfusion h
          · split at h
            · exact PageOutcome.noConfusion h
            · exact PageOutcome.noConfusion h
    · intro hl
      simp only [pageGate]
      rw [if_pos hl]
  · intro cd zf input
    constructor
    · intro h
      by_cases hl : input.length < 3
      · exact hl
      · exfalso
        simp only [inputGate_v2] at h
        rw [if_neg hl] at h
        split at h
        · exact GateOutcome.noConfusion h
        · exact GateOutcome.noConfusion h
    · intro hl
      simp only [inputGate_v2]
      rw [if_pos hl]

theorem toFormat_shape (dt : ZonedDateTime) :
    ∃ h m, h < 24 ∧ m < 60 ∧ toFormatHHMM dt = renderHHMM h m := by
  refine ⟨((dt.instant + dt.offset) % 1440).toNat / 60,
    ((dt.instant + dt.offset) % 1440).toNat % 60, ?_, ?_, rfl⟩
  · have h1 : 0 ≤ (dt.instant + dt.offset) % 1440 := Int.emod_nonneg _ (by norm_num)
    have h2 : (dt.instant + dt.offset) % 1440 < 1440 := Int.emod_lt_of_pos _ (by norm_num)
    omega
  · omega

/-- C5: for every base instant and target identifier, getCountryTime returns
a well-formed clock string (two-digit hour below 24, two-digit minute below
60); when the target is unknown to the timezone database it returns the base
instant formatted in UTC rather than an error. -/
theorem convert_total_utc_fallback :
    ∀ (env : List Char → Option Int) (base : ZonedDateTime) (tz : List Char),
      (∃ h m, h < 24 ∧ m < 60 ∧ getCountryTime env base tz = renderHHMM h m) ∧
      (env tz = none → tz ≠ ("UTC").data →
        getCountryTime env base tz = toFormatHHMM ⟨base.instant, 0⟩) := by
  intro env base tz
  constructor
  · unfold getCountryTime
    split
    · exact toFormat_shape _
    · split
      · exact toFormat_shape _
      · exact toFormat_shape _
  · intro hnone hne
    have hsz : setZone env base tz = none := by
      unfold setZone zoneOffsetOf
      rw [if_neg hne, hnone]
    unfold getCountryTime
    rw [hsz]
    rfl

/-- Witness for C5: converting toward the unknown identifier Not/AZone falls
back to UTC and renders 13:30 for the instant 810 minutes. -/
theorem convert_total_utc_fallback_witness :
    getCountryTime (fun _ => none) ⟨810, 180⟩ (("Not/AZone").data) =
      toFormatHHMM ⟨810, 0⟩ ∧
    toFormatHHMM (⟨810, 0⟩ : ZonedDateTime) = ("13:30").data :=
  ⟨(convert_total_utc_fallback (fun _ => none) ⟨810, 180⟩ (("Not/AZone").data)).2
      rfl (by decide),
   by decide⟩

/-- C6: building an explicit wall-clock time in a zone known to the timezone
database and converting the instant back to that same zone reproduces the
original hour and minute. -/
theorem explicit_roundtrip :
    ∀ (env : List Char → Option Int) (o : Int) (h m : Nat),
      h ≤ 23 → m ≤ 59 → env (("Europe/Istanbul").data) = some o →
      ∀ nowInstant,
        ∃ dt, buildInstant env (TimeSpec.Explicit h m) (("Europe/Istanbul").data)
            nowInstant = some dt ∧
          getCountryTime env dt (("Europe/Istanbul").data) = renderHHMM h m := by
  intro env o h m hh hm henv nowI
  have hzo : zoneOffsetOf env (("Europe/Istanbul").data) = some o := by
    unfold zoneOffsetOf
    rw [if_neg (by decide), henv]
  refine ⟨⟨((h * 60 + m : Nat) : Int) - o, o⟩, ?_, ?_⟩
  · unfold buildInstant
    rw [hzo]
  · have hsz : setZone env ⟨((h * 60 + m : Nat) : Int) - o, o⟩ (("Europe/Istanbul").data) =
        some ⟨((h * 60 + m : Nat) : Int) - o, o⟩ := by
      unfold setZone
      rw [hzo]
    unfold getCountryTime
    rw [hsz]
    have h1 : ((((h * 60 + m : Nat) : Int) - o + o) % 1440).toNat / 60 = h := by omega
    have h2 : ((((h * 60 + m : Nat) : Int) - o + o) % 1440).toNat % 60 = m := by omega
    simp only [toFormatHHMM]
    rw [h1, h2]

/-- Witness for C6: 13:30 built in Europe/Istanbul at offset 180 and shown
back in Europe/Istanbul renders 13:30. -/
theorem explicit_roundtrip_witness :
    buildInstant sampleEnv (TimeSpec.Explicit 13 30) (("Europe/Istanbul").data) 0 =
      some ⟨630, 180⟩ ∧
    getCountryTime sampleEnv ⟨630, 180⟩ (("Europe/Istanbul").data) = ("13:30").data := by
  obtain ⟨dt, hbuild, hconv⟩ :=
    explicit_roundtrip sampleEnv 180 13 30 (by decide) (by decide) (by decide) 0
  have hd : dt = ⟨630, 180⟩ := by
    have hb : buildInstant sampleEnv (TimeSpec.Explicit 13 30)
        (("Europe/Istanbul").data) 0 = some ⟨630, 180⟩ := by decide
    rw [hbuild] at hb
    exact Option.some.inj hb
  subst hd
  refine ⟨hbuild, ?_⟩
  rw [hconv]
  decide

theorem four_digits_ne_now (a : Char) (ha : a.isDigit = true) (r : List Char) :
    ¬(a :: r = ("now").data) := by
  intro h
  injection h with h1 _
  subst h1
  exact absurd ha (by decide)

theorem isValidTimePart_three (u v w : Char) (hu : u.isDigit = true) :
    isValidTimePart [u, v, w] = false := by
  unfold isValidTimePart
  rw [if_neg (four_digits_ne_now u hu _)]

theorem isValidTimePart_digits (a b c d : Char)
    (ha : a.isDigit = true) (hb : b.isDigit = true)
    (hc : c.isDigit = true) (hd : d.isDigit = true)
    (hh : twoDigitVal a b ≤ 23) (hm : twoDigitVal c d ≤ 59) :
    isValidTimePart [a, b, c, d] = true := by
  unfold isValidTimePart
  rw [if_neg (four_digits_ne_now a ha _)]
  simp [ha, hb, hc, hd, hh, hm]

theorem lookupSpecial_len2 (k : List Char) (hk : k.length = 2) :
    lookupSpecial getSpecialTzMap k = none := by
  unfold lookupSpecial
  have hfind : getSpecialTzMap.find? (fun p => p.1 == k) = none := by
    rw [List.find?_eq_none]
    intro p hp
    simp only [getSpecialTzMap, List.mem_cons, List.not_mem_nil, or_false] at hp
    rcases hp with h | h | h | h | h | h | h | h <;>
      (subst h
       intro hbeq
       have heq := beq_iff_eq.mp hbeq
       have hlen := congrArg List.length heq
       rw [hk] at hlen
       exact absurd hlen (by decide))
  rw [hfind]
  rfl

/-- C2: for a 2-character code found case-insensitively in the country table
with a nonempty zone list, followed by four decimal digits with hour at most
23 and minute at most 59, the parser of part_002 lines 777-809 resolves the
country's first listed zone with the country's common name, and the time
specification extracted from the segment is the explicit hour and minute. -/
theorem country_code_time_resolution
    (cd : List CountryRec) (zf : List Char → List (List Char))
    (x y a b c d : Char) (entry : CountryRec) (z : List Char) (zs : List (List Char))
    (hx : isWsC x = false)
    (ha : a.isDigit = true) (hb : b.isDigit = true)
    (hc : c.isDigit = true) (hd : d.isDigit = true)
    (hh : twoDigitVal a b ≤ 23) (hm : twoDigitVal c d ≤ 59)
    (hfind : cd.find? (fun e => upperStr e.cca2 == upperStr [x, y]) = some entry)
    (hzf : zf entry.cca2 = z :: zs) :
    parseUserInput_v2 cd zf ([x, y, a, b, c, d]) =
      some ⟨upperStr [x, y], [a, b, c, d], ⟨z, entry.commonName⟩⟩ ∧
    timeSpecOfTimePart ([a, b, c, d]) =
      TimeSpec.Explicit (twoDigitVal a b) (twoDigitVal c d) := by
  have hdw : isWsC d = false := digit_not_ws d hd
  have e1 : List.dropWhile isWsC [x, y, a, b, c, d] = [x, y, a, b, c, d] := by
    rw [List.dropWhile_cons, hx]
    simp
  have e2 : List.dropWhile isWsC [d, c, b, a, y, x] = [d, c, b, a, y, x] := by
    rw [List.dropWhile_cons, hdw]
    simp
  have htrim : trimStr ([x, y, a, b, c, d]) = [x, y, a, b, c, d] := by
    unfold trimStr
    rw [e1]
    show (List.dropWhile isWsC [d, c, b, a, y, x]).reverse = _
    rw [e2]
    rfl
  have hclean : upperStr ([x, y, a, b, c, d]) =
      [upperChar x, upperChar y, a, b, c, d] := by
    simp only [upperStr, List.map_cons, List.map_nil, upperChar_digit a ha,
      upperChar_digit b hb, upperChar_digit c hc, upperChar_digit d hd]
  have hlow3 : lowerStr (List.drop 3 [upperChar x, upperChar y, a, b, c, d]) =
      [b, c, d] := by
    simp only [List.drop_succ_cons, List.drop_zero, lowerStr, List.map_cons,
      List.map_nil, lowerChar_digit b hb, lowerChar_digit c hc, lowerChar_digit d hd]
  have hlow4 : lowerStr (List.drop 2 [upperChar x, upperChar y, a, b, c, d]) =
      [a, b, c, d] := by
    simp only [List.drop_succ_cons, List.drop_zero, lowerStr, List.map_cons,
      List.map_nil, lowerChar_digit a ha, lowerChar_digit b hb,
      lowerChar_digit c hc, lowerChar_digit d hd]
  have h3 : tryCodeLen cd zf ([upperChar x, upperChar y, a, b, c, d]) 3 = none := by
    simp only [tryCodeLen, hlow3, isValidTimePart_three b c d hb]
    simp
  have hl2 : ([upperChar x, upperChar y] : List Char).length = 2 := by simp
  have hgz : getTimeZoneFromCode cd zf ([upperChar x, upperChar y]) =
      some ⟨z, entry.commonName⟩ := by
    have hup : upperStr ([upperChar x, upperChar y]) = [upperChar x, upperChar y] := by
      simp only [upperStr, List.map_cons, List.map_nil, upperChar_idem]
    have hfind2 : cd.find? (fun e => upperStr e.cca2 == [upperChar x, upperChar y]) =
        some entry := hfind
    simp only [getTimeZoneFromCode, hup, lookupSpecial_len2 _ hl2]
    rw [if_pos hl2]
    simp only [hfind2, hzf]
  have h2 : tryCodeLen cd zf ([upperChar x, upperChar y, a, b, c, d]) 2 =
      some ⟨[upperChar x, upperChar y], [a, b, c, d], ⟨z, entry.commonName⟩⟩ := by
    simp only [tryCodeLen, hlow4,
      isValidTimePart_digits a b c d ha hb hc hd hh hm]
    rw [if_neg (show ¬(([upperChar x, upperChar y, a, b, c, d] : List Char).length < 2 + 3)
      from by simp)]
    rw [if_true]
    simp only [List.take_succ_cons, List.take_zero]
    rw [hgz]
  constructor
  · simp only [parseUserInput_v2, htrim, hclean, h3, h2]
    rfl
  · unfold timeSpecOfTimePart
    rw [if_neg (four_digits_ne_now a ha _)]

/-- Witness for C2: TR1330 resolves against the sample tables to
Europe/Istanbul, Turkey, with the explicit time 13:30. -/
theorem country_code_time_resolution_witness :
    parseUserInput_v2 sampleCountries sampleZones ([' ', ' ', ' ', ' ', ' ', ' ']) =
      none ∧
    parseUserInput_v2 sampleCountries sampleZones (("TR1330").data) =
      some ⟨("TR").data, ("1330").data, ⟨("Europe/Istanbul").data, ("Turkey").data⟩⟩ ∧
    timeSpecOfTimePart (("1330").data) = TimeSpec.Explicit 13 30 := by
  refine ⟨by decide, ?_, ?_⟩
  · have h := (country_code_time_resolution sampleCountries sampleZones
      'T' 'R' '1' '3' '3' '0' ⟨("TR").data, ("Turkey").data⟩
      (("Europe/Istanbul").data) [] (by decide) (by decide) (by decide) (by decide)
      (by decide) (by decide) (by decide) (by decide) (by decide)).1
    exact h
  · have h := (country_code_time_resolution sampleCountries sampleZones
      'T' 'R' '1' '3' '3' '0' ⟨("TR").data, ("Turkey").data⟩
      (("Europe/Istanbul").data) [] (by decide) (by decide) (by decide) (by decide)
      (by decide) (by decide) (by decide) (by decide) (by decide)).2
    exact h

/-- Witness for the amended C7: the length-1 input T is too short for the
page.tsx gate, and the length-2 input TR is too short for the part_002
gate. -/
theorem tooShort_threshold_amended_witness :
    pageGate sampleCountries sampleZones (['T']) = PageOutcome.TooShort ∧
    inputGate_v2 sampleCountries sampleZones (("TR").data) = GateOutcome.TooShort :=
  ⟨(tooShort_threshold_amended.1 sampleCountries sampleZones _).mpr (by decide),
   (tooShort_threshold_amended.2 sampleCountries sampleZones _).mpr (by decide)⟩
